import Mathlib

/-
Shallow embedding of flowchem/devices/Harvard_Apparatus/HA_elite11.py
(Protocol11 syringe-pump command engine).

Python strings are modelled as lists of characters (`PyStr`), machine
integers as `Int`/`Nat`, physical quantities (already converted to their
canonical unit by the out-of-scope unit library) as `Rat`.  Fallible code
returns `Except PumpError _`; the typed failure names follow the spec
taxonomy, each mapped to the concrete `raise`/`assert` site in the source.
-/

set_option autoImplicit false

namespace HAElite11

/-- Python `str` modelled as a list of characters. -/
abbrev PyStr := List Char

/-- Typed failure taxonomy.  Each constructor corresponds to one concrete
`raise DeviceError(...)`, `raise InvalidConfiguration(...)` or `assert`
site in HA_elite11.py. -/
inductive PumpError where
  | ArgumentMismatch
  | InvalidAddress
  | MalformedReply
  | UnknownStatus
  | AddressMismatch
  | Stalled
  | InvalidCommand
  | UnsupportedCommand
  | InvalidArgument
  | ArgumentOutOfRange
  | NoResponse
  | CapabilityError
  deriving DecidableEq

/-- `Protocol11CommandTemplate`: a pump command and its expected reply,
without target pump number (HA_elite11.py lines 52-58). -/
structure Protocol11CommandTemplate where
  command_string : PyStr
  reply_lines : Nat
  requires_argument : Bool
  deriving DecidableEq

/-- `Protocol11Command`: a command template bound to a pump address and an
argument (HA_elite11.py lines 79-84). -/
structure Protocol11Command extends Protocol11CommandTemplate where
  target_pump_address : Int
  command_argument : PyStr
  deriving DecidableEq

/-- `Protocol11CommandTemplate.to_pump` (lines 60-76): binds address and
argument, failing when the argument requirement is violated (Python
truthiness: an argument is "absent" iff it is the empty string). -/
def to_pump (t : Protocol11CommandTemplate) (address : Int) (argument : PyStr) :
    Except PumpError Protocol11Command :=
  if t.requires_argument = true ∧ argument = [] then
    .error PumpError.ArgumentMismatch
  else if t.requires_argument = false ∧ argument ≠ [] then
    .error PumpError.ArgumentMismatch
  else
    .ok { command_string := t.command_string
          reply_lines := t.reply_lines
          requires_argument := t.requires_argument
          target_pump_address := address
          command_argument := argument }

/-- Decimal rendering of a Python `int` by `str(...)` (no padding). -/
def pyStrOfInt (n : Int) : PyStr :=
  if n < 0 then '-' :: Nat.toDigits 10 n.natAbs else Nat.toDigits 10 n.natAbs

/-- The CRLF line terminator appended by `compile`. -/
def CRLF : PyStr := '\r' :: '\n' :: []

/-- `Protocol11Command.compile` (lines 86-98):
`str(address) + command_string + " " + argument + "\r\n"`, guarded by
`assert 0 <= target_pump_address < 99` (mapped to `InvalidAddress`). -/
def compile (c : Protocol11Command) : Except PumpError PyStr :=
  if 0 ≤ c.target_pump_address ∧ c.target_pump_address < 99 then
    .ok (pyStrOfInt c.target_pump_address ++ c.command_string ++ (' ' :: [])
          ++ c.command_argument ++ CRLF)
  else
    .error PumpError.InvalidAddress

/-- `PumpStatus` (lines 101-108): pump status as defined by the reply
prompt character. -/
inductive PumpStatus where
  | IDLE
  | INFUSING
  | WITHDRAWING
  | TARGET_REACHED
  | STALLED
  deriving DecidableEq

/-- `PumpStatus(value)` enum lookup: maps a prompt character to a status,
`none` when unmapped (Python raises `ValueError`). -/
def pumpStatusOfValue (c : Char) : Option PumpStatus :=
  if c = ':' then some PumpStatus.IDLE
  else if c = '>' then some PumpStatus.INFUSING
  else if c = '<' then some PumpStatus.WITHDRAWING
  else if c = 'T' then some PumpStatus.TARGET_REACHED
  else if c = '*' then some PumpStatus.STALLED
  else none

/-- Python whitespace as recognised by `str.strip()`. -/
def pyIsSpace (c : Char) : Bool :=
  c = ' ' ∨ c = '\t' ∨ c = '\n' ∨ c = '\r' ∨ c = '\x0b' ∨ c = '\x0c'

/-- Python `str.strip()`: drop leading and trailing whitespace. -/
def pyStrip (s : PyStr) : PyStr :=
  ((s.dropWhile pyIsSpace).reverse.dropWhile pyIsSpace).reverse

/-- Loop body of `PumpIO._read_reply` (lines 139-159): each raw line is
decoded and stripped; line 0 is unconditionally blanked (device quirk:
stray prompt characters leak into the first line); empty lines are
dropped, non-empty ones retained in order. -/
def read_reply_loop : Nat → List PyStr → List PyStr
  | _, [] => []
  | line_num, chunk :: rest =>
    let c := pyStrip chunk
    let c2 := if line_num = 0 then [] else c
    if c2 = [] then read_reply_loop (line_num + 1) rest
    else c2 :: read_reply_loop (line_num + 1) rest

/-- `PumpIO._read_reply` applied to the list of raw lines read from the
serial port.  The source reads exactly `command.reply_lines + 2` lines;
here `raw` stands for that list of lines. -/
def read_reply (raw : List PyStr) : List PyStr :=
  read_reply_loop 0 raw

/-- Digits-only decimal parse (helper for Python `int(...)`). -/
def digitsToNat? (l : PyStr) : Option Nat :=
  if l = [] then none
  else if l.all Char.isDigit then
    some (l.foldl (fun a c => a * 10 + (c.toNat - '0'.toNat)) 0)
  else none

/-- Python `int(s)` on a short ASCII string: surrounding whitespace is
ignored, an optional sign precedes the digits; otherwise `ValueError`. -/
def pyIntOpt (s : PyStr) : Option Int :=
  match pyStrip s with
  | '+' :: ds => (digitsToNat? ds).map Int.ofNat
  | '-' :: ds => (digitsToNat? ds).map (fun n => -(n : Int))
  | ds => (digitsToNat? ds).map Int.ofNat

/-- One parsed reply line: address, status prompt and reply body
(the components returned by `parse_response_line`). -/
structure ParsedLine where
  address : Int
  status : PumpStatus
  body : PyStr
  deriving DecidableEq

/-- `PumpIO.parse_response_line` (lines 161-172): `assert len(line) >= 3`
(mapped to `MalformedReply`), address from `int(line[0:2])` (a
`ValueError` is also mapped to `MalformedReply`), status from
`PumpStatus(line[2:3])` (`UnknownStatus` when unmapped); TARGET_REACHED
is the only two-character prompt, so its body starts at index 4. -/
def parse_response_line (line : PyStr) : Except PumpError ParsedLine :=
  if 3 ≤ line.length then
    match pyIntOpt (line.take 2) with
    | none => .error PumpError.MalformedReply
    | some addr =>
      match pumpStatusOfValue (line.getD 2 ' ') with
      | none => .error PumpError.UnknownStatus
      | some PumpStatus.TARGET_REACHED =>
        .ok { address := addr, status := PumpStatus.TARGET_REACHED, body := line.drop 4 }
      | some st =>
        .ok { address := addr, status := st, body := line.drop 3 }
  else .error PumpError.MalformedReply

/-- `PumpIO.parse_response` (lines 174-181): maps `parse_response_line`
over all reply lines; the first failing line aborts the parse. -/
def parse_response : List PyStr → Except PumpError (List ParsedLine)
  | [] => .ok []
  | line :: rest =>
    match parse_response_line line with
    | .error e => .error e
    | .ok p =>
      match parse_response rest with
      | .error e => .error e
      | .ok ps => .ok (p :: ps)

/-- Whether `needle` occurs at the start of `hay` (helper for Python
substring containment `needle in hay`). -/
def startsWithSub : PyStr → PyStr → Bool
  | _, [] => true
  | [], _ :: _ => false
  | c :: cs, d :: ds => c = d && startsWithSub cs ds

/-- Python substring containment `needle in hay`. -/
def containsSub (needle : PyStr) : PyStr → Bool
  | [] => needle.isEmpty
  | c :: rest => startsWithSub (c :: rest) needle || containsSub needle rest

/-- `PumpIO.check_for_errors` (lines 183-206): scans the last response
line for error markers, in this order (an `elif` chain, so at most one
marker fires): "Command error", "Unknown command", "Argument error",
"Out of range". -/
def check_for_errors (last_response_line : PyStr) : Option PumpError :=
  if containsSub ("Command error".data) last_response_line = true then
    some PumpError.InvalidCommand
  else if containsSub ("Unknown command".data) last_response_line = true then
    some PumpError.UnsupportedCommand
  else if containsSub ("Argument error".data) last_response_line = true then
    some PumpError.InvalidArgument
  else if containsSub ("Out of range".data) last_response_line = true then
    some PumpError.ArgumentOutOfRange
  else none

/-- `PumpIO.write_and_read_reply` (lines 215-246), from the point where
the raw reply lines have been read: empty reply fails with
`NoResponse`; the lines are parsed; `assert all(address == target)`
(mapped to `AddressMismatch`); a STALLED status anywhere raises the
stall failure; finally `check_for_errors` runs on the last raw line.
On success the parsed bodies are returned (`return_parsed=True`). -/
def write_and_read_reply (command : Protocol11Command) (raw : List PyStr) :
    Except PumpError (List PyStr) :=
  let response := read_reply raw
  if response = [] then .error PumpError.NoResponse
  else
    match parse_response response with
    | .error e => .error e
    | .ok parsed =>
      if ∀ p ∈ parsed, p.address = command.target_pump_address then
        if ∃ p ∈ parsed, p.status = PumpStatus.STALLED then
          .error PumpError.Stalled
        else
          match check_for_errors (response.getLastD []) with
          | some e => .error e
          | none => .ok (parsed.map fun p => p.body)
      else .error PumpError.AddressMismatch

/-!  `Elite11Commands` (lines 257-421): the static command catalog. -/

namespace Elite11Commands

/-- `Elite11Commands.EMPTY_MESSAGE` (line 272). -/
def EMPTY_MESSAGE : Protocol11CommandTemplate :=
  { command_string := " ".data, reply_lines := 0, requires_argument := false }

/-- `Elite11Commands.GET_VERSION` (line 275). -/
def GET_VERSION : Protocol11CommandTemplate :=
  { command_string := "VER".data, reply_lines := 1, requires_argument := false }

/-- `Elite11Commands.RUN` (line 280). -/
def RUN : Protocol11CommandTemplate :=
  { command_string := "run".data, reply_lines := 0, requires_argument := false }

/-- `Elite11Commands.REVERSE_RUN` (line 283). -/
def REVERSE_RUN : Protocol11CommandTemplate :=
  { command_string := "rrun".data, reply_lines := 0, requires_argument := false }

/-- `Elite11Commands.INFUSE` (line 286). -/
def INFUSE : Protocol11CommandTemplate :=
  { command_string := "irun".data, reply_lines := 0, requires_argument := false }

/-- `Elite11Commands.WITHDRAW` (line 289). -/
def WITHDRAW : Protocol11CommandTemplate :=
  { command_string := "wrun".data, reply_lines := 0, requires_argument := false }

/-- `Elite11Commands.STOP` (line 294). -/
def STOP : Protocol11CommandTemplate :=
  { command_string := "stp".data, reply_lines := 0, requires_argument := false }

/-- `Elite11Commands.GET_FORCE` (line 299). -/
def GET_FORCE : Protocol11CommandTemplate :=
  { command_string := "FORCE".data, reply_lines := 1, requires_argument := false }

/-- `Elite11Commands.SET_FORCE` (line 302). -/
def SET_FORCE : Protocol11CommandTemplate :=
  { command_string := "FORCE".data, reply_lines := 1, requires_argument := true }

/-- `Elite11Commands.SET_DIAMETER` (line 307). -/
def SET_DIAMETER : Protocol11CommandTemplate :=
  { command_string := "diameter".data, reply_lines := 1, requires_argument := true }

/-- `Elite11Commands.GET_DIAMETER` (line 310). -/
def GET_DIAMETER : Protocol11CommandTemplate :=
  { command_string := "diameter".data, reply_lines := 1, requires_argument := false }

/-- `Elite11Commands.METRICS` (line 314). -/
def METRICS : Protocol11CommandTemplate :=
  { command_string := "metrics".data, reply_lines := 20, requires_argument := false }

/-- `Elite11Commands.CURRENT_MOVING_RATE` (line 317). -/
def CURRENT_MOVING_RATE : Protocol11CommandTemplate :=
  { command_string := "crate".data, reply_lines := 1, requires_argument := false }

/-- `Elite11Commands.GET_INFUSE_RATE` (line 338). -/
def GET_INFUSE_RATE : Protocol11CommandTemplate :=
  { command_string := "irate".data, reply_lines := 1, requires_argument := false }

/-- `Elite11Commands.GET_INFUSE_RATE_LIMITS` (line 341). -/
def GET_INFUSE_RATE_LIMITS : Protocol11CommandTemplate :=
  { command_string := "irate lim".data, reply_lines := 1, requires_argument := false }

/-- `Elite11Commands.SET_INFUSE_RATE` (line 344). -/
def SET_INFUSE_RATE : Protocol11CommandTemplate :=
  { command_string := "irate".data, reply_lines := 1, requires_argument := true }

/-- `Elite11Commands.GET_WITHDRAW_RATE` (line 347). -/
def GET_WITHDRAW_RATE : Protocol11CommandTemplate :=
  { command_string := "wrate".data, reply_lines := 1, requires_argument := false }

/-- `Elite11Commands.SET_WITHDRAW_RATE` (line 353). -/
def SET_WITHDRAW_RATE : Protocol11CommandTemplate :=
  { command_string := "wrate".data, reply_lines := 1, requires_argument := true }

/-- `Elite11Commands.INFUSED_VOLUME` (line 358). -/
def INFUSED_VOLUME : Protocol11CommandTemplate :=
  { command_string := "ivolume".data, reply_lines := 1, requires_argument := false }

/-- `Elite11Commands.GET_SYRINGE_VOLUME` (line 361). -/
def GET_SYRINGE_VOLUME : Protocol11CommandTemplate :=
  { command_string := "svolume".data, reply_lines := 1, requires_argument := false }

/-- `Elite11Commands.SET_SYRINGE_VOLUME` (line 364). -/
def SET_SYRINGE_VOLUME : Protocol11CommandTemplate :=
  { command_string := "svolume".data, reply_lines := 1, requires_argument := true }

/-- `Elite11Commands.WITHDRAWN_VOLUME` (line 367). -/
def WITHDRAWN_VOLUME : Protocol11CommandTemplate :=
  { command_string := "wvolume".data, reply_lines := 1, requires_argument := false }

/-- `Elite11Commands.GET_TARGET_VOLUME` (line 372). -/
def GET_TARGET_VOLUME : Protocol11CommandTemplate :=
  { command_string := "tvolume".data, reply_lines := 1, requires_argument := false }

/-- `Elite11Commands.SET_TARGET_VOLUME` (line 375). -/
def SET_TARGET_VOLUME : Protocol11CommandTemplate :=
  { command_string := "tvolume".data, reply_lines := 1, requires_argument := true }

/-- `Elite11Commands.CLEAR_INFUSED_VOLUME` (line 380). -/
def CLEAR_INFUSED_VOLUME : Protocol11CommandTemplate :=
  { command_string := "civolume".data, reply_lines := 0, requires_argument := false }

/-- `Elite11Commands.CLEAR_WITHDRAWN_VOLUME` (line 383). -/
def CLEAR_WITHDRAWN_VOLUME : Protocol11CommandTemplate :=
  { command_string := "cwvolume".data, reply_lines := 0, requires_argument := false }

/-- `Elite11Commands.CLEAR_INFUSED_WITHDRAWN_VOLUME` (line 386). -/
def CLEAR_INFUSED_WITHDRAWN_VOLUME : Protocol11CommandTemplate :=
  { command_string := "cvolume".data, reply_lines := 0, requires_argument := false }

/-- `Elite11Commands.CLEAR_TARGET_VOLUME` (line 389). -/
def CLEAR_TARGET_VOLUME : Protocol11CommandTemplate :=
  { command_string := "ctvolume".data, reply_lines := 0, requires_argument := false }

end Elite11Commands

/-!  The `Elite11` session operations the claims are about.  The serial
round-trips performed by an operation are recorded as a trace: a list of
`(template, optional numeric parameter)` pairs, one per
`send_command_and_read_reply` call, in order.  Device replies consumed
inside an operation (e.g. the is-moving status query) enter as explicit
boolean/numeric inputs. -/

/-- Session-local pump state: `Elite11._withdraw_enabled`, set during
`initialize()` from the device capability metrics (line 535). -/
structure Elite11State where
  withdraw_enabled : Bool
  deriving DecidableEq

/-- `Elite11.ensure_withdraw_is_enabled` (lines 540-545): raises
(`CapabilityError`) when the pump is infuse-only. -/
def ensure_withdraw_is_enabled (s : Elite11State) : Except PumpError Unit :=
  if s.withdraw_enabled = false then .error PumpError.CapabilityError
  else .ok ()

/-- One wire exchange issued by a session operation: the command template
and the numeric parameter it was sent with (if any). -/
abbrev SentCommand := Protocol11CommandTemplate × Option ℚ

/-- Outcome of a run-family operation. -/
inductive RunOutcome where
  | capabilityError
  | alreadyMoving
  | started
  deriving DecidableEq

/-- `Elite11.withdraw_run` (lines 661-670): first
`ensure_withdraw_is_enabled` (before any wire traffic), then the
is-moving check (one EMPTY_MESSAGE status round-trip); if moving, warn
and return; otherwise send WITHDRAW.  `moving` is the device's answer to
the status query. -/
def withdraw_run (s : Elite11State) (moving : Bool) : List SentCommand × RunOutcome :=
  match ensure_withdraw_is_enabled s with
  | .error _ => ([], RunOutcome.capabilityError)
  | .ok _ =>
    if moving then ([(Elite11Commands.EMPTY_MESSAGE, none)], RunOutcome.alreadyMoving)
    else ([(Elite11Commands.EMPTY_MESSAGE, none), (Elite11Commands.WITHDRAW, none)],
          RunOutcome.started)

/-- `Elite11.run` (lines 633-641): is-moving check (one EMPTY_MESSAGE
round-trip); if moving, `warnings.warn` and plain return (no raise);
otherwise send RUN. -/
def run (moving : Bool) : List SentCommand × RunOutcome :=
  if moving then ([(Elite11Commands.EMPTY_MESSAGE, none)], RunOutcome.alreadyMoving)
  else ([(Elite11Commands.EMPTY_MESSAGE, none), (Elite11Commands.RUN, none)],
        RunOutcome.started)

/-- `Elite11.bound_rate_to_pump_limits` (lines 566-592), after the limits
round-trip and unit conversion: all three rates are in ml/min.  Clamps
the requested rate into the device limits, one `warnings.warn` per
adjusted bound; returns the effective rate and whether a clamp warning
was issued. -/
def bound_rate_to_pump_limits (rate lower_limit upper_limit : ℚ) : ℚ × Bool :=
  let r1 := if rate < lower_limit then lower_limit else rate
  let w1 := decide (rate < lower_limit)
  let r2 := if r1 > upper_limit then upper_limit else r1
  let w2 := decide (r1 > upper_limit)
  (r2, w1 || w2)

/-- `Elite11.set_syringe_diameter` (lines 770-783), with `diameter`
already converted to mm: outside 1-33 mm the code issues
`warnings.warn(... is not valid, ignored!)` and returns without raising
and without any wire write; in range it sends SET_DIAMETER.  Result:
`.ok (trace, warned)` — the function never raises on its own. -/
def set_syringe_diameter (diameter : ℚ) :
    Except PumpError (List SentCommand × Bool) :=
  if ¬ (1 ≤ diameter ∧ diameter ≤ 33) then .ok ([], true)
  else .ok ([(Elite11Commands.SET_DIAMETER, some diameter)], false)

/-- `Elite11.set_target_volume` (lines 808-824), with `target_volume`
already converted to ml: a zero volume sends CLEAR_TARGET_VOLUME with no
argument; a non-zero volume sends SET_TARGET_VOLUME with the volume as
argument. -/
def set_target_volume (target_volume_in_ml : ℚ) : SentCommand :=
  if target_volume_in_ml = 0 then (Elite11Commands.CLEAR_TARGET_VOLUME, none)
  else (Elite11Commands.SET_TARGET_VOLUME, some target_volume_in_ml)

/-- The strip-and-keep step applied to each reply line past line 0 by
`PumpIO._read_reply`: strip the line, keep it only if non-empty. -/
def stripKeep (s : PyStr) : Option PyStr :=
  if pyStrip s = [] then none else some (pyStrip s)

end HAElite11

deriving instance DecidableEq for Except

namespace HAElite11

/-! ## Helper lemmas -/

/-- Past line 0, `_read_reply` retains exactly the stripped non-empty
lines, in order. -/
theorem read_reply_loop_eq_filterMap (l : List PyStr) (n : Nat) :
    read_reply_loop (n + 1) l = l.filterMap stripKeep := by
  induction l generalizing n with
  | nil => rfl
  | cons c rest ih =>
    by_cases h : pyStrip c = [] <;>
      simp [read_reply_loop, stripKeep, h, ih (n + 1)]

/-- `_read_reply` on a reply with a leading decoy line: line 0 is
discarded regardless of content, the remaining lines are stripped and
the empty ones dropped. -/
theorem read_reply_cons (decoy : PyStr) (rest : List PyStr) :
    read_reply (decoy :: rest) = rest.filterMap stripKeep := by
  have h := read_reply_loop_eq_filterMap rest 0
  simpa [read_reply, read_reply_loop] using h

/-- Counting the retained lines: the strip-and-keep pass keeps as many
lines as are non-empty after stripping. -/
theorem length_filterMap_stripKeep (l : List PyStr) :
    (l.filterMap stripKeep).length = l.countP (fun s => decide (pyStrip s ≠ [])) := by
  induction l with
  | nil => rfl
  | cons c rest ih =>
    by_cases h : pyStrip c = [] <;> simp [stripKeep, List.countP_cons, h, ih]

/-- A successful `parse_response` yields one parsed line per input line. -/
theorem parse_response_length (r : List PyStr) (p : List ParsedLine)
    (h : parse_response r = .ok p) : p.length = r.length := by
  induction r generalizing p with
  | nil =>
    simp only [parse_response] at h
    cases h
    rfl
  | cons line rest ih =>
    simp only [parse_response] at h
    cases h1 : parse_response_line line with
    | error e => rw [h1] at h; cases h
    | ok q =>
      rw [h1] at h
      cases h2 : parse_response rest with
      | error e => rw [h2] at h; cases h
      | ok ps =>
        rw [h2] at h
        cases h
        simp [ih ps h2]

/-- `check_for_errors` never produces the address-integrity failure: its
four markers map to the four device-rejection failures only. -/
theorem check_for_errors_ne_addr (l : PyStr) :
    check_for_errors l ≠ some PumpError.AddressMismatch := by
  unfold check_for_errors
  split_ifs <;> decide

/-! ## Claims -/

/-- Claim C1, counterexample: the argument-requirement invariant holds
(RUN takes no argument, the argument is empty) and the address 5 lies in
the valid range, `to_pump` succeeds and `compile` produces
`"5run \r\n"` — but that line starts with the single character `5`, not
with the address zero-padded to two digits (`"05"`): `str(address)` does
no padding. -/
theorem c1_counterexample :
    to_pump Elite11Commands.RUN 5 [] =
      .ok { command_string := "run".data, reply_lines := 0, requires_argument := false,
            target_pump_address := 5, command_argument := [] }
    ∧ compile { command_string := "run".data, reply_lines := 0, requires_argument := false,
                target_pump_address := 5, command_argument := [] } = .ok ("5run \x0d\n".data)
    ∧ ("5run \x0d\n".data).take 2 ≠ "05".data :=
  ⟨by decide, by decide, by decide⟩

/-- Claim C1 (amended): for every (template, address, argument) triple
satisfying the argument-requirement invariant and with address in
[0,99), `to_pump` succeeds and `compile` produces a line that ends in
CRLF and begins with the decimal representation of the address (without
zero-padding: one digit for addresses 0-9). -/
theorem c1_build_compile (t : Protocol11CommandTemplate) (address : Int) (argument : PyStr)
    (harg : t.requires_argument = true ↔ argument ≠ [])
    (h0 : 0 ≤ address) (h99 : address < 99) :
    ∃ cmd line, to_pump t address argument = .ok cmd ∧ compile cmd = .ok line ∧
      (∃ s, line = s ++ CRLF) ∧ (∃ r, line = pyStrOfInt address ++ r) := by
  have hne1 : ¬ (t.requires_argument = true ∧ argument = []) := by
    rintro ⟨h1, h2⟩
    exact (harg.mp h1) h2
  have hne2 : ¬ (t.requires_argument = false ∧ argument ≠ []) := by
    rintro ⟨h1, h2⟩
    have hx := harg.mpr h2
    rw [h1] at hx
    exact Bool.false_ne_true hx
  refine ⟨{ command_string := t.command_string, reply_lines := t.reply_lines,
              requires_argument := t.requires_argument,
              target_pump_address := address, command_argument := argument },
          pyStrOfInt address ++ t.command_string ++ (' ' :: []) ++ argument ++ CRLF,
          ?_, ?_, ?_, ?_⟩
  · simp [to_pump, hne1, hne2]
  · simp [compile, h0, h99]
  · exact ⟨pyStrOfInt address ++ t.command_string ++ (' ' :: []) ++ argument,
      by simp [List.append_assoc]⟩
  · exact ⟨t.command_string ++ (' ' :: []) ++ argument ++ CRLF,
      by simp [List.append_assoc]⟩

/-- Claim C1 witness: the amended statement at the STOP template,
address 7, empty argument. -/
theorem c1_build_compile_witness :
    ∃ cmd line, to_pump Elite11Commands.STOP 7 [] = .ok cmd
      ∧ compile cmd = .ok line
      ∧ (∃ s, line = s ++ CRLF) ∧ (∃ r, line = pyStrOfInt 7 ++ r) :=
  c1_build_compile Elite11Commands.STOP 7 [] (by decide) (by decide) (by decide)

/-- Claim C5: for every command whose bound address lies outside [0,99),
`compile` fails with `InvalidAddress` (the `assert` guard), producing no
wire-ready line. -/
theorem c5_invalid_address (cmd : Protocol11Command)
    (h : ¬ (0 ≤ cmd.target_pump_address ∧ cmd.target_pump_address < 99)) :
    compile cmd = .error PumpError.InvalidAddress := by
  simp only [compile, if_neg h]

/-- Claim C5 witness: address 99 (the first integer above the range) is
rejected. -/
theorem c5_invalid_address_witness :
    compile { command_string := "run".data, reply_lines := 0, requires_argument := false,
              target_pump_address := 99, command_argument := [] }
      = .error PumpError.InvalidAddress :=
  c5_invalid_address _ (by decide)

/-- Claim C9: on a session whose capability detection determined the
device is infuse-only (`withdraw_enabled = false`), `withdraw_run` fails
with the capability failure and its wire trace is empty: no command is
sent, including the is-moving status query, whatever the device's motion
state would have answered. -/
theorem c9_withdraw_capability (s : Elite11State) (moving : Bool)
    (h : s.withdraw_enabled = false) :
    withdraw_run s moving = ([], RunOutcome.capabilityError) := by
  simp [withdraw_run, ensure_withdraw_is_enabled, h]

/-- Claim C9 witness: an infuse-only session, even with the device
moving, produces no traffic and the capability failure. -/
theorem c9_withdraw_capability_witness :
    withdraw_run { withdraw_enabled := false } true = ([], RunOutcome.capabilityError) :=
  c9_withdraw_capability { withdraw_enabled := false } true rfl

/-- Claim C10: `set_target_volume` with volume 0 ml sends the
clear-target-volume command (code "ctvolume", no argument) instead of a
set-target-volume command; only a non-zero volume sends the set-target
command (code "tvolume") with the volume as argument. -/
theorem c10_set_target_volume (v : ℚ) :
    (v = 0 → set_target_volume v = (Elite11Commands.CLEAR_TARGET_VOLUME, none))
    ∧ (v ≠ 0 → set_target_volume v = (Elite11Commands.SET_TARGET_VOLUME, some v))
    ∧ Elite11Commands.CLEAR_TARGET_VOLUME.command_string = "ctvolume".data
    ∧ Elite11Commands.CLEAR_TARGET_VOLUME.requires_argument = false
    ∧ Elite11Commands.SET_TARGET_VOLUME.command_string = "tvolume".data := by
  refine ⟨fun h => by simp [set_target_volume, h],
          fun h => by simp [set_target_volume, h], rfl, rfl, rfl⟩

/-- Claim C10 witness: concrete volumes 0 ml and 1 ml. -/
theorem c10_set_target_volume_witness :
    set_target_volume 0 = (Elite11Commands.CLEAR_TARGET_VOLUME, none)
    ∧ set_target_volume 1 = (Elite11Commands.SET_TARGET_VOLUME, some 1) :=
  ⟨(c10_set_target_volume 0).1 rfl, (c10_set_target_volume 1).2.1 (by norm_num)⟩

/-- Claim C2, counterexample: `set_syringe_diameter` with 50 mm (outside
the 1-33 mm range) returns normally (`.ok`), performs no wire write
(empty trace) and only issues a non-fatal warning (flag `true`) — it
does not surface any raised failure to its caller, so rate clamping is
not the only operation that swallows a detected failure condition. -/
theorem c2_counterexample :
    set_syringe_diameter 50 = .ok ([], true) := by
  norm_num [set_syringe_diameter]

/-- Claim C2 (amended): `set_syringe_diameter` with a diameter outside
1-33 mm behaves like rate clamping, not like an error path: it reports
via a non-fatal warning, performs no wire write, and returns
successfully rather than raising; only an in-range diameter produces the
SET_DIAMETER wire write (and no warning). -/
theorem c2_diameter_warn (d : ℚ) :
    (¬ (1 ≤ d ∧ d ≤ 33) → set_syringe_diameter d = .ok ([], true))
    ∧ (1 ≤ d ∧ d ≤ 33 →
        set_syringe_diameter d = .ok ([(Elite11Commands.SET_DIAMETER, some d)], false)) := by
  constructor
  · intro h
    simp [set_syringe_diameter, h]
  · intro h
    simp [set_syringe_diameter, h]

/-- Claim C2 witness: the amended statement at 50 mm (out of range,
warn-and-skip) and 10 mm (in range, wire write). -/
theorem c2_diameter_warn_witness :
    set_syringe_diameter 50 = .ok ([], true)
    ∧ set_syringe_diameter 10 = .ok ([(Elite11Commands.SET_DIAMETER, some 10)], false) :=
  ⟨(c2_diameter_warn 50).1 (by norm_num), (c2_diameter_warn 10).2 (by norm_num)⟩

/-- Claim C3, counterexample: a reply whose last line reads
"Command error: Out of range" does contain the substring "Out of range",
yet classification fails with the invalid-command failure, not
`ArgumentOutOfRange`: the marker scan is an elif chain and
"Command error" is tested first.  The full exchange pipeline agrees. -/
theorem c3_counterexample :
    containsSub ("Out of range".data) ("01:Command error: Out of range".data) = true
    ∧ check_for_errors ("01:Command error: Out of range".data) = some PumpError.InvalidCommand
    ∧ check_for_errors ("01:Command error: Out of range".data) ≠ some PumpError.ArgumentOutOfRange
    ∧ write_and_read_reply
        { command_string := " ".data, reply_lines := 1, requires_argument := false,
          target_pump_address := 1, command_argument := [] }
        [ [], "01:Command error: Out of range".data, [] ]
        = .error PumpError.InvalidCommand :=
  ⟨by decide, by decide, by decide, by decide⟩

/-- Claim C3 (amended): a last response line containing "Out of range"
always makes classification fail; the failure is `ArgumentOutOfRange`
provided the line does not also contain one of the markers scanned
earlier in the elif chain ("Command error", "Unknown command",
"Argument error"), which otherwise take precedence. -/
theorem c3_out_of_range (line : PyStr)
    (h1 : containsSub ("Out of range".data) line = true) :
    (check_for_errors line).isSome = true
    ∧ (containsSub ("Command error".data) line = false →
       containsSub ("Unknown command".data) line = false →
       containsSub ("Argument error".data) line = false →
       check_for_errors line = some PumpError.ArgumentOutOfRange) := by
  constructor
  · unfold check_for_errors
    split_ifs <;> simp_all
  · intro h2 h3 h4
    simp [check_for_errors, h1, h2, h3, h4]

/-- Claim C3 witness: the amended statement at the bare marker line. -/
theorem c3_out_of_range_witness :
    (check_for_errors ("Out of range".data)).isSome = true
    ∧ check_for_errors ("Out of range".data) = some PumpError.ArgumentOutOfRange :=
  ⟨(c3_out_of_range ("Out of range".data) (by decide)).1,
   (c3_out_of_range ("Out of range".data) (by decide)).2 (by decide) (by decide) (by decide)⟩

/-- Claim C8, counterexample: with inverted device limits
(lower 60 ml/min, upper 40 ml/min) the clamp of a request of 50 ml/min
returns 40 ml/min, which does not lie in the (empty) interval
[lowerLimit, upperLimit]; the claim's unrestricted quantification over
limits fails. -/
theorem c8_counterexample :
    ¬ ((60:ℚ) ≤ (bound_rate_to_pump_limits 50 60 40).1
        ∧ (bound_rate_to_pump_limits 50 60 40).1 ≤ 40) := by
  norm_num [bound_rate_to_pump_limits]

/-- Claim C8 (amended): whenever the device-reported limits satisfy
lowerLimit ≤ upperLimit, the returned rate lies within
[lowerLimit, upperLimit] and the operation returns the clamped value
rather than failing; in particular a request of 200 ml/min against
limits (0.001 ml/min, 100 ml/min) returns 100 ml/min with the clamp
reported (non-fatally). -/
theorem c8_bound_clamps (rate lower_limit upper_limit : ℚ)
    (h : lower_limit ≤ upper_limit) :
    (lower_limit ≤ (bound_rate_to_pump_limits rate lower_limit upper_limit).1
      ∧ (bound_rate_to_pump_limits rate lower_limit upper_limit).1 ≤ upper_limit)
    ∧ bound_rate_to_pump_limits 200 (1/1000) 100 = (100, true) := by
  constructor
  · simp only [bound_rate_to_pump_limits]
    split_ifs <;> constructor <;> linarith
  · norm_num [bound_rate_to_pump_limits]

/-- Claim C8 witness: the amended statement at the spec's concrete
request and limits. -/
theorem c8_bound_clamps_witness :
    ((1:ℚ)/1000 ≤ (bound_rate_to_pump_limits 200 (1/1000) 100).1
      ∧ (bound_rate_to_pump_limits 200 (1/1000) 100).1 ≤ 100)
    ∧ bound_rate_to_pump_limits 200 (1/1000) 100 = (100, true) :=
  c8_bound_clamps 200 (1/1000) 100 (by norm_num)

/-- Claim C4, counterexample: a reply whose single body line is
"99*Out of range" parses to a line with the STALLED status, yet against
a command targeting address 1 the exchange fails with the
address-integrity failure, not the stall failure: the address assert
runs before the stall check, so STALLED in the parsed statuses does not
always make the exchange fail with the stall failure. -/
theorem c4_counterexample :
    parse_response (read_reply [ [], "99*Out of range".data ])
      = .ok [ { address := 99, status := PumpStatus.STALLED, body := "Out of range".data } ]
    ∧ write_and_read_reply
        { command_string := " ".data, reply_lines := 0, requires_argument := false,
          target_pump_address := 1, command_argument := [] }
        [ [], "99*Out of range".data ] = .error PumpError.AddressMismatch :=
  ⟨by decide, by decide⟩

/-- Claim C4 (amended): for every reply that parses successfully and
whose lines all carry the command's target address, the presence of
STALLED in any line's parsed status makes the exchange fail with the
stall failure — before body-text error classification, so body markers
such as "Out of range" in the same reply never determine the outcome;
when some line carries a different address, the address-integrity check
(which runs first) fails instead. -/
theorem c4_stall_precedence (cmd : Protocol11Command) (raw : List PyStr)
    (parsed : List ParsedLine)
    (hparse : parse_response (read_reply raw) = .ok parsed)
    (haddr : ∀ p ∈ parsed, p.address = cmd.target_pump_address)
    (hstall : ∃ p ∈ parsed, p.status = PumpStatus.STALLED) :
    write_and_read_reply cmd raw = .error PumpError.Stalled := by
  have hne : read_reply raw ≠ [] := by
    intro h
    rw [h] at hparse
    simp only [parse_response] at hparse
    cases hparse
    obtain ⟨p, hp, _⟩ := hstall
    exact List.not_mem_nil p hp
  simp only [write_and_read_reply]
  rw [if_neg hne, hparse]
  simp only []
  rw [if_pos haddr, if_pos hstall]

/-- Claim C4 witness: a correctly-addressed stalled reply whose body
carries the "Out of range" marker still fails with the stall failure. -/
theorem c4_stall_precedence_witness :
    write_and_read_reply
      { command_string := " ".data, reply_lines := 0, requires_argument := false,
        target_pump_address := 1, command_argument := [] }
      [ [], "01*Out of range".data ] = .error PumpError.Stalled :=
  c4_stall_precedence _ _
    [ { address := 1, status := PumpStatus.STALLED, body := "Out of range".data } ]
    (by decide) (by decide) (by decide)

/-- Claim C6, counterexample: a synthetic reply of
`expectedReplyLines + 2 = 2` raw lines (for a 0-body-line command) whose
line 0 is a decoy and whose single remaining line "x" is non-empty after
trimming (so N = 1) does not make the read-and-parse pipeline yield
exactly 1 parsed reply line: "x" is shorter than 3 characters, so the
parse phase fails with the malformed-reply failure. -/
theorem c6_counterexample :
    ([ "x".data ] : List PyStr).countP (fun s => decide (pyStrip s ≠ [])) = 1
    ∧ parse_response (read_reply ("decoy".data :: [ "x".data ]))
        = .error PumpError.MalformedReply :=
  ⟨by decide, by decide⟩

/-- Claim C6 (amended): for every synthetic reply in which line 0 is a
decoy, the read phase discards line 0 regardless of its content and
retains exactly the lines that are non-empty after trimming, in order;
whenever parsing the retained lines succeeds, the pipeline yields
exactly N parsed reply lines, where N is the number of remaining lines
non-empty after trimming. -/
theorem c6_read_parse_pipeline (decoy : PyStr) (rest : List PyStr) (parsed : List ParsedLine)
    (hparse : parse_response (read_reply (decoy :: rest)) = .ok parsed) :
    read_reply (decoy :: rest) = rest.filterMap stripKeep
    ∧ parsed.length = rest.countP (fun s => decide (pyStrip s ≠ [])) := by
  refine ⟨read_reply_cons decoy rest, ?_⟩
  have h1 := parse_response_length _ _ hparse
  rw [read_reply_cons] at h1
  rw [h1, length_filterMap_stripKeep]

/-- Claim C6 witness: a decoy line holding a leaked "T*" prompt, two
well-formed body lines and one whitespace-only line yield exactly 2
parsed lines. -/
theorem c6_read_parse_pipeline_witness :
    read_reply ("T*".data :: [ "01:a".data, "  ".data, "01:b".data ])
      = [ "01:a".data, "  ".data, "01:b".data ].filterMap stripKeep
    ∧ ([ { address := 1, status := PumpStatus.IDLE, body := "a".data },
         { address := 1, status := PumpStatus.IDLE, body := "b".data } ] : List ParsedLine).length
      = [ "01:a".data, "  ".data, "01:b".data ].countP (fun s => decide (pyStrip s ≠ [])) :=
  c6_read_parse_pipeline _ _ _ (by decide)

/-- Claim C7: for every parsed reply, if any line's parsed address
differs from the target address of the command, the exchange fails with
the address-integrity failure; if all addresses equal the target
address, no such failure is raised (whatever the exchange's eventual
outcome). -/
theorem c7_address_check (cmd : Protocol11Command) (raw : List PyStr)
    (parsed : List ParsedLine)
    (hparse : parse_response (read_reply raw) = .ok parsed) :
    ((∃ p ∈ parsed, p.address ≠ cmd.target_pump_address) →
        write_and_read_reply cmd raw = .error PumpError.AddressMismatch)
    ∧ ((∀ p ∈ parsed, p.address = cmd.target_pump_address) →
        write_and_read_reply cmd raw ≠ .error PumpError.AddressMismatch) := by
  by_cases hresp : read_reply raw = []
  · rw [hresp] at hparse
    simp only [parse_response] at hparse
    cases hparse
    constructor
    · rintro ⟨p, hp, _⟩
      exact absurd hp (List.not_mem_nil p)
    · intro _
      simp [write_and_read_reply, hresp]
  · constructor
    · rintro ⟨p, hp, hne⟩
      have hnall : ¬ ∀ q ∈ parsed, q.address = cmd.target_pump_address :=
        fun hall => hne (hall p hp)
      simp only [write_and_read_reply]
      rw [if_neg hresp, hparse]
      simp only []
      rw [if_neg hnall]
    · intro hall
      simp only [write_and_read_reply]
      rw [if_neg hresp, hparse]
      simp only []
      rw [if_pos hall]
      by_cases hst : ∃ p ∈ parsed, p.status = PumpStatus.STALLED
      · rw [if_pos hst]
        decide
      · rw [if_neg hst]
        cases hc : check_for_errors ((read_reply raw).getLastD []) with
        | none => simp
        | some e =>
          simp only []
          intro hcontra
          have he : e = PumpError.AddressMismatch := by
            injection hcontra
          rw [he] at hc
          exact check_for_errors_ne_addr _ hc

/-- Claim C7 witness: a reply from address 1 against a command targeting
address 5 fails with the address-integrity failure; the same reply
against a command targeting address 1 does not. -/
theorem c7_address_check_witness :
    write_and_read_reply
      { command_string := " ".data, reply_lines := 1, requires_argument := false,
        target_pump_address := 5, command_argument := [] }
      [ [], "01:a".data, [] ] = .error PumpError.AddressMismatch
    ∧ write_and_read_reply
        { command_string := " ".data, reply_lines := 1, requires_argument := false,
          target_pump_address := 1, command_argument := [] }
        [ [], "01:a".data, [] ] ≠ .error PumpError.AddressMismatch :=
  ⟨(c7_address_check _ _ [ { address := 1, status := PumpStatus.IDLE, body := "a".data } ]
      (by decide)).1 (by decide),
   (c7_address_check _ _ [ { address := 1, status := PumpStatus.IDLE, body := "a".data } ]
      (by decide)).2 (by decide)⟩

end HAElite11
